import Mathlib

/-!
Shallow embedding of the WritersVoice phase-progression and feature-unlock
engine, together with proofs checking the specification's claims against it.

Conventions of the embedding:
* JS numbers holding integral values (days, weeks, millisecond timestamps,
  word counts) are modelled as `Int`.
* `Math.floor(a / b)` for a positive literal `b` is Lean's `Int` division
  `a / b` (Euclidean division, which is floor division for positive
  divisors); the JS remainder operator `%` (truncated, sign of the
  dividend) is `Int.tmod`.
* Calendar dates (the result of stripping a timestamp to midnight /
  `toISOString().split('T')[0]`) are modelled by the day index
  `t / msPerDay` of the millisecond timestamp `t`.
* `Date.now()` is an explicit `now : Int` argument threaded through every
  operation that reads the clock.
* `Math.random()`-based prompt selection takes the random draw as an
  explicit `rand : Nat` argument; `Math.floor(Math.random() * len)` is
  `rand % len`.
-/

namespace WritersVoice

/-- Milliseconds per day, the divisor used by `getDaysSinceStart`. -/
def msPerDay : Int := 1000 * 60 * 60 * 24

/-- Day index of a millisecond timestamp: models stripping the time of day
to midnight (`setHours(0,0,0,0)`) and counting whole days. -/
def dayIndex (t : Int) : Int := t / msPerDay

/-- The four journey phases (`src/types`, used by `phaseUnlock.ts`). -/
inductive Phase
  | stone
  | transfer
  | application
  | autonomous
deriving DecidableEq, Repr

/-- Position of a phase in the progression order. -/
def Phase.toNat : Phase → Nat
  | .stone => 0
  | .transfer => 1
  | .application => 2
  | .autonomous => 3

/-- Order on phases: `stone < transfer < application < autonomous`. -/
def Phase.le (p q : Phase) : Prop := p.toNat ≤ q.toNat

instance : DecidablePred fun p : Phase × Phase => Phase.le p.1 p.2 :=
  fun _ => Nat.decLe _ _

instance (p q : Phase) : Decidable (Phase.le p q) := Nat.decLe _ _

/-- Function `getCurrentWeek` from `src/src/utils/phaseUnlock.ts`:
`Math.floor(daysSinceStart / 7) + 1`. -/
def getCurrentWeek (daysSinceStart : Int) : Int := daysSinceStart / 7 + 1

/-- Function `getDayOfWeek` from `src/src/utils/phaseUnlock.ts`:
`(daysSinceStart % 7) + 1` with the JS truncated remainder. -/
def getDayOfWeek (daysSinceStart : Int) : Int := Int.tmod daysSinceStart 7 + 1

/-- Function `getDaysSinceStart` from `src/src/utils/phaseUnlock.ts`: `0` for a null
start date, otherwise the floor of (now's midnight − start's midnight) in
days.  `now` and `startDate` are millisecond timestamps. -/
def getDaysSinceStart (now : Int) (startDate : Option Int) : Int :=
  match startDate with
  | none => 0
  | some start => (dayIndex now * msPerDay - dayIndex start * msPerDay) / msPerDay

/-- Function `calculatePhase` from `src/src/utils/phaseUnlock.ts`. -/
def calculatePhase (daysSinceStart : Int) : Phase :=
  if daysSinceStart < 7 then .stone
  else if daysSinceStart < 21 then .transfer
  else if daysSinceStart < 84 then .application
  else .autonomous

/-- The `UnlockState` record of boolean feature flags. -/
structure UnlockState where
  textEditor : Bool
  multipleChapters : Bool
  fullChapterManagement : Bool
  reflectionWorkspace : Bool
  communityFeatures : Bool
  fullEditor : Bool
  exportFeatures : Bool
deriving DecidableEq, Repr

/-- Pointwise implication of unlock flags: every flag true in `u` is true
in `v` (`v` unlocks a superset of `u`). -/
def UnlockState.le (u v : UnlockState) : Prop :=
  (u.textEditor = true → v.textEditor = true) ∧
  (u.multipleChapters = true → v.multipleChapters = true) ∧
  (u.fullChapterManagement = true → v.fullChapterManagement = true) ∧
  (u.reflectionWorkspace = true → v.reflectionWorkspace = true) ∧
  (u.communityFeatures = true → v.communityFeatures = true) ∧
  (u.fullEditor = true → v.fullEditor = true) ∧
  (u.exportFeatures = true → v.exportFeatures = true)

instance (u v : UnlockState) : Decidable (UnlockState.le u v) := by
  unfold UnlockState.le; infer_instance

/-- Function `calculateUnlocks` from `src/src/utils/phaseUnlock.ts`. -/
def calculateUnlocks (daysSinceStart : Int) : UnlockState :=
  let week := getCurrentWeek daysSinceStart
  { textEditor := decide (week ≥ 2)
    multipleChapters := decide (week ≥ 4)
    fullChapterManagement := decide (week ≥ 7)
    reflectionWorkspace := decide (week ≥ 7)
    communityFeatures := decide (week ≥ 10)
    fullEditor := decide (week ≥ 10)
    exportFeatures := decide (week ≥ 10) }

/-- Function `getMaxChapters` from `src/src/utils/phaseUnlock.ts`; `none` is the JS
`null` (unlimited). -/
def getMaxChapters (week : Int) : Option Int :=
  if week < 4 then some 1
  else if week < 7 then some 5
  else none

/-- Function `getPromptInterval` from `src/src/utils/phaseUnlock.ts`; `none` is the
JS `null` (no prompts). -/
def getPromptInterval (week : Int) : Option Int :=
  if week < 2 then none
  else if week ≤ 3 then some 5
  else if week ≤ 6 then some 10
  else if week ≤ 9 then some 15
  else none

/-- The `FeatureUnlock` notification record of `phaseUnlock.ts`. -/
structure FeatureUnlock where
  feature : String
  description : String
  icon : String
deriving DecidableEq, Repr

/-- Function `getNewUnlocks` from `src/src/utils/phaseUnlock.ts`: conditionally
pushes a fixed announcement list for each exact week-boundary pair. -/
def getNewUnlocks (previousWeek currentWeek : Int) : List FeatureUnlock :=
  (if previousWeek = 1 ∧ currentWeek = 2 then
    [{ feature := "Text Editor", description := "You can now write in the app",
       icon := "edit" }]
   else []) ++
  (if previousWeek = 3 ∧ currentWeek = 4 then
    [{ feature := "Multiple Chapters", description := "Create up to 5 chapters",
       icon := "layers" }]
   else []) ++
  (if previousWeek = 6 ∧ currentWeek = 7 then
    [{ feature := "Unlimited Chapters", description := "No more chapter limits",
       icon := "infinity" },
     { feature := "Reflection Workspace", description := "A dedicated space for processing",
       icon := "book-open" }]
   else []) ++
  (if previousWeek = 9 ∧ currentWeek = 10 then
    [{ feature := "Community Sharing", description := "Share with the community",
       icon := "users" },
     { feature := "Export & Publishing", description := "Export your work to various formats",
       icon := "download" }]
   else []) ++
  (if previousWeek = 12 ∧ currentWeek = 13 then
    [{ feature := "Full Autonomy",
       description := "All features unlocked. Your voice journey is complete!",
       icon := "award" }]
   else [])

/-- The `EngagementPrompt` record of `src/src/constants/prompts.ts`.  The
`kind` field embeds the source's `type` field (prompt category). -/
structure EngagementPrompt where
  id : String
  message : String
  kind : String
  phase : Int
  intervalMinutes : Int
deriving DecidableEq, Repr

/-- Constant `PROMPT_LIBRARY` from `src/src/constants/prompts.ts`. -/
def PROMPT_LIBRARY : List EngagementPrompt :=
  [{ id := "fingers-keys", message := "Feel your fingers on the keys, sensing the sensing",
     kind := "sensation", phase := 2, intervalMinutes := 5 },
   { id := "landing",
     message := "Read that last sentence internally - where does it land in your body?",
     kind := "resonance", phase := 2, intervalMinutes := 5 },
   { id := "stone-reminder",
     message := "Same quality you felt with the stone - can you feel it in your writing?",
     kind := "anchor", phase := 2, intervalMinutes := 7 },
   { id := "pause-breath", message := "Pause. Take one breath. Feel yourself breathing.",
     kind := "sensation", phase := 2, intervalMinutes := 5 },
   { id := "move-something",
     message := "What you just wrote - did it move something in you? Just notice.",
     kind := "resonance", phase := 2, intervalMinutes := 5 },
   { id := "fingertips-lead",
     message := "Your fingertips already know where the keys are. Let them lead.",
     kind := "sensation", phase := 2, intervalMinutes := 6 },
   { id := "space-between",
     message := "Notice the space between thinking what to write and writing it.",
     kind := "awareness", phase := 2, intervalMinutes := 5 },
   { id := "shoulders-soften",
     message := "Is there tension in your shoulders? Let it soften while you write.",
     kind := "sensation", phase := 2, intervalMinutes := 7 },
   { id := "voice-recognition",
     message := "Is this your voice? Or someone else's you're imitating?",
     kind := "awareness", phase := 3, intervalMinutes := 10 },
   { id := "body-reaction",
     message := "Your body knows if this resonates. What's it telling you?",
     kind := "resonance", phase := 3, intervalMinutes := 10 },
   { id := "thinking-vs-feeling",
     message := "Are you thinking what to write, or feeling what to write?",
     kind := "awareness", phase := 3, intervalMinutes := 10 },
   { id := "sound-like-you",
     message := "Read the last paragraph - does it sound like you?",
     kind := "awareness", phase := 3, intervalMinutes := 12 },
   { id := "writing-from",
     message := "Notice where you're writing FROM. Head? Chest? Gut?",
     kind := "resonance", phase := 3, intervalMinutes := 10 },
   { id := "ring-true", message := "Is this true? Not factually - does it ring true?",
     kind := "resonance", phase := 3, intervalMinutes := 10 },
   { id := "wants-to-be-said",
     message := "What wants to be said next? Don't think - sense it.",
     kind := "awareness", phase := 3, intervalMinutes := 11 },
   { id := "forcing-allowing",
     message := "Feel the difference between forcing words and allowing words.",
     kind := "awareness", phase := 3, intervalMinutes := 10 },
   { id := "notice-noticing", message := "Notice yourself noticing as you write.",
     kind := "awareness", phase := 4, intervalMinutes := 15 },
   { id := "ideas-connect",
     message := "How do these ideas want to connect? Let them show you.",
     kind := "resonance", phase := 4, intervalMinutes := 15 },
   { id := "passages-land",
     message := "What makes some passages land more than others?",
     kind := "awareness", phase := 4, intervalMinutes := 15 },
   { id := "voice-texture",
     message := "Your voice has a texture. What does it feel like right now?",
     kind := "resonance", phase := 4, intervalMinutes := 18 },
   { id := "performing-genuine",
     message := "Notice when you're performing versus when you're genuine.",
     kind := "awareness", phase := 4, intervalMinutes := 15 },
   { id := "underneath", message := "What's underneath what you're writing about?",
     kind := "resonance", phase := 4, intervalMinutes := 17 },
   { id := "check-in-feeling",
     message := "Check in: Are you still feeling what you're writing?",
     kind := "resonance", phase := 4, intervalMinutes := 30 },
   { id := "voice-check", message := "Voice check: Is this authentic?",
     kind := "awareness", phase := 4, intervalMinutes := 30 },
   { id := "body-check",
     message := "Body check: What's your body telling you about this passage?",
     kind := "resonance", phase := 4, intervalMinutes := 30 }]

/-- Function `getPromptsForWeek` from `src/src/constants/prompts.ts`. -/
def getPromptsForWeek (week : Int) : List EngagementPrompt :=
  if week < 2 then []
  else if week ≤ 3 then PROMPT_LIBRARY.filter (fun p => p.phase = 2)
  else if week ≤ 6 then PROMPT_LIBRARY.filter (fun p => p.phase = 3)
  else if week ≤ 9 then
    PROMPT_LIBRARY.filter (fun p => p.phase = 4 ∧ p.intervalMinutes ≤ 20)
  else PROMPT_LIBRARY.filter (fun p => p.phase = 4 ∧ p.intervalMinutes ≥ 25)

/-- Function `selectPrompt` from `src/src/constants/prompts.ts`.  The random
draw of `Math.floor(Math.random() * pool.length)` is supplied as `rand`
and reduced modulo the pool length, covering every index the source can
pick. -/
def selectPrompt (week : Int) (recentlyShown : List String) (rand : Nat) :
    Option EngagementPrompt :=
  let availablePrompts := getPromptsForWeek week
  if availablePrompts.isEmpty then none
  else
    let freshPrompts :=
      availablePrompts.filter (fun p => ¬ recentlyShown.contains p.id)
    let pool := if freshPrompts.length > 0 then freshPrompts else availablePrompts
    pool[rand % pool.length]?

/-- The `PromptsState` slice of the prompts store (`usePromptsStore`),
with `lastResetDate` embedding the source's `_lastResetDate` calendar
date as a day index. -/
structure PromptsState where
  currentPrompt : Option EngagementPrompt
  promptStartTime : Option Int
  lastPromptTime : Option Int
  nextPromptTime : Option Int
  promptInterval : Int
  writingSessionStartTime : Option Int
  isWritingSessionActive : Bool
  promptsShownToday : List String
  totalPromptsAnswered : Int
  promptsAnsweredThisSession : Int
  promptsEnabled : Bool
  lastResetDate : Int
deriving DecidableEq, Repr

/-- Initial state of the prompts store, for a store created on the day of
timestamp `t0`. -/
def initialPromptsState (t0 : Int) : PromptsState :=
  { currentPrompt := none
    promptStartTime := none
    lastPromptTime := none
    nextPromptTime := none
    promptInterval := 5
    writingSessionStartTime := none
    isWritingSessionActive := false
    promptsShownToday := []
    totalPromptsAnswered := 0
    promptsAnsweredThisSession := 0
    promptsEnabled := true
    lastResetDate := dayIndex t0 }

/-- Action `scheduleNextPrompt` of `usePromptsStore`. -/
def scheduleNextPrompt (week : Int) (now : Int) (s : PromptsState) : PromptsState :=
  match getPromptInterval week with
  | none => { s with nextPromptTime := none }
  | some interval =>
      { s with promptInterval := interval
               nextPromptTime := some (now + interval * 60 * 1000) }

/-- Action `showPrompt` of `usePromptsStore`. -/
def showPrompt (prompt : EngagementPrompt) (now : Int) (s : PromptsState) :
    PromptsState :=
  { s with currentPrompt := some prompt
           promptStartTime := some now
           lastPromptTime := some now
           promptsShownToday :=
             if s.promptsShownToday.contains prompt.id then s.promptsShownToday
             else s.promptsShownToday ++ [prompt.id] }

/-- Action `startWritingSession` of `usePromptsStore` (the prompts store,
distinct from the progress store's action of the same name): resets the
daily prompt list when the calendar day changed, marks the session
active, and schedules the first prompt with the hard-coded week `2`. -/
def promptsStartWritingSession (now : Int) (s : PromptsState) : PromptsState :=
  let today := dayIndex now
  let s1 :=
    if s.lastResetDate ≠ today then
      { s with promptsShownToday := [], lastResetDate := today }
    else s
  let s2 :=
    { s1 with writingSessionStartTime := some now
              isWritingSessionActive := true
              promptsAnsweredThisSession := 0
              currentPrompt := none }
  scheduleNextPrompt 2 now s2

/-- Action `endWritingSession` of `usePromptsStore`. -/
def promptsEndWritingSession (s : PromptsState) : PromptsState :=
  { s with writingSessionStartTime := none
           isWritingSessionActive := false
           currentPrompt := none
           nextPromptTime := none }

/-- Action `checkAndShowPrompt` of `usePromptsStore`: returns whether a
prompt was shown, together with the updated state.  The JS truthiness
test `state.nextPromptTime && Date.now() < state.nextPromptTime` reads a
null `nextPromptTime` as false. -/
def checkAndShowPrompt (week : Int) (now : Int) (rand : Nat)
    (s : PromptsState) : Bool × PromptsState :=
  if ¬ s.isWritingSessionActive ∨ ¬ s.promptsEnabled ∨ s.currentPrompt ≠ none then
    (false, s)
  else if (match s.nextPromptTime with
           | some t => decide (now < t)
           | none => false) then
    (false, s)
  else
    match selectPrompt week s.promptsShownToday rand with
    | some prompt => (true, scheduleNextPrompt week now (showPrompt prompt now s))
    | none => (false, s)

/-- The `StoneSession` record of the progress store; `date` is a day
index, `timestamp` a millisecond timestamp. -/
structure StoneSession where
  id : String
  date : Int
  timestamp : Int
  duration : Int
  completed : Bool
  reflection : Option String
deriving DecidableEq, Repr

/-- The `WritingSession` record of the progress store. -/
structure WritingSession where
  id : String
  date : Int
  timestamp : Int
  duration : Int
  wordCount : Int
  resonanceScore : Int
  phase : Phase
deriving DecidableEq, Repr

/-- The `ResonanceScore` record of the progress store. -/
structure ResonanceScore where
  id : String
  date : Int
  score : Int
  sessionId : String
  timestamp : Int
deriving DecidableEq, Repr

/-- The `MigrationChoice` record stored by `skipJourney`; the source's
ISO-string timestamp is embedded as a millisecond timestamp. -/
structure MigrationChoice where
  choice : String
  timestamp : Int
  previousDataPreserved : Bool
deriving DecidableEq, Repr

/-- An `archivedBooks` entry of the progress store. -/
structure ArchivedBook where
  bookId : String
  archivedAt : Int
  accessibleAfterWeek : Int
deriving DecidableEq, Repr

/-- The persisted state slice of the progress store (`useProgressStore`);
`startDate` is a millisecond timestamp (the source's ISO string). -/
structure ProgressState where
  phase : Phase
  startDate : Option Int
  hasCompletedOnboarding : Bool
  stoneSessionsLog : List StoneSession
  dailyStoneGoal : Int
  writingSessionsLog : List WritingSession
  resonanceScores : List ResonanceScore
  unlocked : UnlockState
  migrationChoice : Option MigrationChoice
  archivedBooks : List ArchivedBook
  devModeEnabled : Bool
deriving DecidableEq, Repr

/-- Constant `DEFAULT_UNLOCKS` of the progress store (nothing unlocked). -/
def DEFAULT_UNLOCKS : UnlockState :=
  { textEditor := false
    multipleChapters := false
    fullChapterManagement := false
    reflectionWorkspace := false
    communityFeatures := false
    fullEditor := false
    exportFeatures := false }

/-- The unlock record with every flag set, written by `skipJourney` and by
`forcePhase 'autonomous'`. -/
def ALL_UNLOCKS : UnlockState :=
  { textEditor := true
    multipleChapters := true
    fullChapterManagement := true
    reflectionWorkspace := true
    communityFeatures := true
    fullEditor := true
    exportFeatures := true }

/-- Initial state of the progress store. -/
def initialProgressState : ProgressState :=
  { phase := .stone
    startDate := none
    hasCompletedOnboarding := false
    stoneSessionsLog := []
    dailyStoneGoal := 2
    writingSessionsLog := []
    resonanceScores := []
    unlocked := DEFAULT_UNLOCKS
    migrationChoice := none
    archivedBooks := []
    devModeEnabled := false }

/-- Action `startJourney` of `useProgressStore`. -/
def startJourney (now : Int) (s : ProgressState) : ProgressState :=
  { s with startDate := some now
           phase := .stone
           unlocked := DEFAULT_UNLOCKS
           hasCompletedOnboarding := true }

/-- Action `skipJourney` of `useProgressStore`: jumps to the autonomous
phase with everything unlocked, leaving `startDate` untouched. -/
def skipJourney (now : Int) (s : ProgressState) : ProgressState :=
  { s with phase := .autonomous
           hasCompletedOnboarding := true
           migrationChoice :=
             some { choice := "skip", timestamp := now, previousDataPreserved := true }
           unlocked := ALL_UNLOCKS }

/-- Action `resetJourney` of `useProgressStore` (explicit reset tooling). -/
def resetJourney (s : ProgressState) : ProgressState :=
  { s with phase := .stone
           startDate := none
           hasCompletedOnboarding := false
           stoneSessionsLog := []
           writingSessionsLog := []
           resonanceScores := []
           unlocked := DEFAULT_UNLOCKS
           migrationChoice := none
           archivedBooks := [] }

/-- Action `completeOnboarding` of `useProgressStore`. -/
def completeOnboarding (now : Int) (s : ProgressState) : ProgressState :=
  { s with hasCompletedOnboarding := true
           startDate :=
             match s.startDate with
             | none => some now
             | some d => some d }

/-- Action `completeStoneSession` of `useProgressStore`; the generated id
is supplied explicitly. -/
def completeStoneSession (now : Int) (id : String) (duration : Int)
    (reflection : Option String) (s : ProgressState) : ProgressState :=
  { s with stoneSessionsLog :=
      s.stoneSessionsLog ++
        [{ id := id, date := dayIndex now, timestamp := now,
           duration := duration, completed := true, reflection := reflection }] }

/-- Action `startWritingSession` of `useProgressStore`; the generated id is
supplied explicitly, and the returned id is the state-independent `id`. -/
def progressStartWritingSession (now : Int) (id : String) (s : ProgressState) :
    ProgressState :=
  { s with writingSessionsLog :=
      s.writingSessionsLog ++
        [{ id := id, date := dayIndex now, timestamp := now, duration := 0,
           wordCount := 0, resonanceScore := 0, phase := s.phase }] }

/-- Rounding used by `endWritingSession`:
`Math.round(ms / 1000 / 60)`, i.e. the nearest minute with halves rounded
up (`Math.round x = Math.floor (x + 1/2)`). -/
def roundToMinutes (ms : Int) : Int := (ms + 30000) / 60000

/-- Update applied by `endWritingSession` to the first session in the log
whose id matches (the source's `Array.prototype.find`). -/
def endSessionInLog (now : Int) (sessionId : String) (wordCount : Int) :
    List WritingSession → List WritingSession
  | [] => []
  | w :: ws =>
      if w.id = sessionId then
        { w with duration := roundToMinutes (now - w.timestamp)
                 wordCount := wordCount } :: ws
      else w :: endSessionInLog now sessionId wordCount ws

/-- Action `endWritingSession` of `useProgressStore`. -/
def endWritingSession (now : Int) (sessionId : String) (wordCount : Int)
    (s : ProgressState) : ProgressState :=
  { s with writingSessionsLog :=
      endSessionInLog now sessionId wordCount s.writingSessionsLog }

/-- Update applied by `recordResonanceScore` to the first matching session. -/
def setScoreInLog (sessionId : String) (score : Int) :
    List WritingSession → List WritingSession
  | [] => []
  | w :: ws =>
      if w.id = sessionId then { w with resonanceScore := score } :: ws
      else w :: setScoreInLog sessionId score ws

/-- Action `recordResonanceScore` of `useProgressStore`; the generated id
of the appended `ResonanceScore` entry is supplied explicitly. -/
def recordResonanceScore (now : Int) (id : String) (sessionId : String)
    (score : Int) (s : ProgressState) : ProgressState :=
  { s with writingSessionsLog := setScoreInLog sessionId score s.writingSessionsLog
           resonanceScores :=
             s.resonanceScores ++
               [{ id := id, date := dayIndex now, score := score,
                  sessionId := sessionId, timestamp := now }] }

/-- Action `checkPhaseTransition` of `useProgressStore`: returns the list
of feature-unlock events and the updated state. -/
def checkPhaseTransition (now : Int) (s : ProgressState) :
    List FeatureUnlock × ProgressState :=
  if s.startDate = none ∨ s.devModeEnabled then ([], s)
  else
    let daysSinceStart := getDaysSinceStart now s.startDate
    let newPhase := calculatePhase daysSinceStart
    let newUnlocks := calculateUnlocks daysSinceStart
    let previousWeek := getCurrentWeek (getDaysSinceStart now s.startDate - 1)
    let currentWeek := getCurrentWeek daysSinceStart
    let featureUnlocks := getNewUnlocks previousWeek currentWeek
    if newPhase ≠ s.phase then
      (featureUnlocks, { s with phase := newPhase, unlocked := newUnlocks })
    else
      (featureUnlocks, { s with unlocked := newUnlocks })

/-- The non-dev, non-reset operations of the progress store named by the
specification's "normal operation", with generated ids and user-supplied
payloads as explicit arguments. -/
inductive Op
  | startJourney
  | skipJourney
  | completeOnboarding
  | completeStoneSession (id : String) (duration : Int) (reflection : Option String)
  | startWritingSession (id : String)
  | endWritingSession (sessionId : String) (wordCount : Int)
  | recordResonanceScore (id : String) (sessionId : String) (score : Int)
  | checkPhaseTransition
deriving DecidableEq, Repr

/-- Apply one store operation at clock time `now`. -/
def applyOp (now : Int) (op : Op) (s : ProgressState) : ProgressState :=
  match op with
  | .startJourney => startJourney now s
  | .skipJourney => skipJourney now s
  | .completeOnboarding => completeOnboarding now s
  | .completeStoneSession id d r => completeStoneSession now id d r s
  | .startWritingSession id => progressStartWritingSession now id s
  | .endWritingSession sid wc => endWritingSession now sid wc s
  | .recordResonanceScore id sid sc => recordResonanceScore now id sid sc s
  | .checkPhaseTransition => (checkPhaseTransition now s).2

/-- Operations that neither restart nor skip the journey.  The claim's
alphabet also contains `startJourney` and `skipJourney`; the amended
monotonicity theorem excludes them after the initial `startJourney`. -/
def Op.isBenign : Op → Bool
  | .startJourney => false
  | .skipJourney => false
  | _ => true

/-- The sequence of states visited while executing a timed trace of store
operations, beginning with the initial state `s`. -/
def traceStates (s : ProgressState) : List (Int × Op) → List ProgressState
  | [] => [s]
  | (t, op) :: rest => s :: traceStates (applyOp t op s) rest

/-- Step relation asserted by the monotonicity claim: the phase does not
move backwards and no unlock flag reverts. -/
def StepMono (a b : ProgressState) : Prop :=
  Phase.le a.phase b.phase ∧ UnlockState.le a.unlocked b.unlocked

instance (a b : ProgressState) : Decidable (StepMono a b) := by
  unfold StepMono; infer_instance


/-- A prompts-store state reached during a writing session started (at
time 0, on the store's creation day) in a week whose prompt interval is
null: the session is started and then rescheduled with the actual week 10,
as the progress layer does. -/
def week10SessionState : PromptsState :=
  scheduleNextPrompt 10 0 (promptsStartWritingSession 0 (initialPromptsState 0))

/-- A one-entry writing-session log used to exercise `endWritingSession`. -/
def sampleSession : WritingSession :=
  { id := "s1", date := 0, timestamp := 0, duration := 0, wordCount := 0,
    resonanceScore := 0, phase := .stone }

/-- A store state holding only `sampleSession`. -/
def sampleProgress : ProgressState :=
  { initialProgressState with writingSessionsLog := [sampleSession] }

/-- Invariant carried through a benign trace: the journey has started at
`d0` with dev mode off, and the stored phase and unlocks are those
computed at some past elapsed-day count `tdays`. -/
def PhaseClockInv (d0 tdays : Int) (s : ProgressState) : Prop :=
  s.startDate = some d0 ∧ s.devModeEnabled = false ∧
  s.phase = calculatePhase tdays ∧ s.unlocked = calculateUnlocks tdays

/-- C3: for every elapsedDays ≥ 0, `calculatePhase` yields one of the four
phase values, is non-decreasing in elapsedDays, and takes the table values
at the boundaries 6, 7, 20, 21, 83 and 84. -/
theorem calculatePhase_spec :
    (∀ d : Int, calculatePhase d = .stone ∨ calculatePhase d = .transfer ∨
      calculatePhase d = .application ∨ calculatePhase d = .autonomous) ∧
    (∀ d1 d2 : Int, 0 ≤ d1 → d1 ≤ d2 →
      Phase.le (calculatePhase d1) (calculatePhase d2)) ∧
    calculatePhase 6 = .stone ∧ calculatePhase 7 = .transfer ∧
    calculatePhase 20 = .transfer ∧ calculatePhase 21 = .application ∧
    calculatePhase 83 = .application ∧ calculatePhase 84 = .autonomous := by
  refine ⟨?_, ?_, by decide, by decide, by decide, by decide, by decide, by decide⟩
  · intro d
    unfold calculatePhase
    split_ifs <;> simp
  · intro d1 d2 h0 h12
    unfold calculatePhase
    split_ifs <;> simp_all [Phase.le, Phase.toNat] <;> omega

/-- Witness for C3: the monotonicity part at elapsedDays 3 and 100. -/
theorem calculatePhase_spec_witness :
    Phase.le (calculatePhase 3) (calculatePhase 100) :=
  calculatePhase_spec.2.1 3 100 (by decide) (by decide)

/-- C7: the chapter-limit and prompt-interval tables, read as disjoint
week intervals, agree with `getMaxChapters` and `getPromptInterval`. -/
theorem limits_spec :
    ∀ w : Int, 1 ≤ w →
      ((w < 4 → getMaxChapters w = some 1) ∧
       (4 ≤ w → w < 7 → getMaxChapters w = some 5) ∧
       (7 ≤ w → getMaxChapters w = none) ∧
       (w < 2 → getPromptInterval w = none) ∧
       (2 ≤ w → w ≤ 3 → getPromptInterval w = some 5) ∧
       (4 ≤ w → w ≤ 6 → getPromptInterval w = some 10) ∧
       (7 ≤ w → w ≤ 9 → getPromptInterval w = some 15) ∧
       (10 ≤ w → getPromptInterval w = none)) := by
  intro w hw
  unfold getMaxChapters getPromptInterval
  refine ⟨fun h => ?_, fun h h2 => ?_, fun h => ?_, fun h => ?_,
    fun h h2 => ?_, fun h h2 => ?_, fun h h2 => ?_, fun h => ?_⟩ <;>
    split_ifs <;> first | rfl | omega

/-- Witness for C7: the tables at week 5. -/
theorem limits_spec_witness :
    getMaxChapters 5 = some 5 ∧ getPromptInterval 5 = some 10 :=
  ⟨(limits_spec 5 (by decide)).2.1 (by decide) (by decide),
   (limits_spec 5 (by decide)).2.2.2.2.2.1 (by decide) (by decide)⟩

/-- C8 counterexample: at elapsedDays = −1 (reachable via a future start
date), the derived week is 0 and the derived day-of-week is 0, so
(week−1)*7 + (dayOfWeek−1) = −8 ≠ −1: the round-trip equation fails. -/
theorem roundTrip_neg_counterexample :
    getCurrentWeek (-1) = 0 ∧ getDayOfWeek (-1) = 0 ∧
    (getCurrentWeek (-1) - 1) * 7 + (getDayOfWeek (-1) - 1) = -8 ∧
    ((getCurrentWeek (-1) - 1) * 7 + (getDayOfWeek (-1) - 1) ≠ -1) := by
  decide

/-- C8 amended: for every elapsedDays ≥ 0 the derived week and day-of-week
satisfy (week−1)*7 + (dayOfWeek−1) = elapsedDays. -/
theorem roundTrip_nonneg :
    ∀ d : Int, 0 ≤ d →
      (getCurrentWeek d - 1) * 7 + (getDayOfWeek d - 1) = d := by
  intro d hd
  unfold getCurrentWeek getDayOfWeek
  rw [Int.tmod_eq_emod hd (by norm_num)]
  omega

/-- Witness for C8: the round trip at elapsedDays 9. -/
theorem roundTrip_nonneg_witness :
    (getCurrentWeek 9 - 1) * 7 + (getDayOfWeek 9 - 1) = 9 :=
  roundTrip_nonneg 9 (by decide)

/-- C10: a null start date maps to 0 elapsed days; any other start date
maps to the raw midnight difference with no clamping, so a start date
whose midnight lies strictly after today's yields a negative count; every
negative count is outside the 1-based week range, and at count −1 both the
week and the day-of-week fall to 0. -/
theorem getDaysSinceStart_spec :
    (∀ now : Int, getDaysSinceStart now none = 0) ∧
    (∀ now start : Int,
      getDaysSinceStart now (some start) = dayIndex now - dayIndex start) ∧
    (∀ now start : Int, dayIndex now < dayIndex start →
      getDaysSinceStart now (some start) < 0) ∧
    (∀ d : Int, d < 0 → getCurrentWeek d ≤ 0) ∧
    (getDaysSinceStart 0 (some msPerDay) = -1 ∧
      getCurrentWeek (-1) ≤ 0 ∧ getDayOfWeek (-1) ≤ 0) := by
  have hraw : ∀ now start : Int,
      getDaysSinceStart now (some start) = dayIndex now - dayIndex start := by
    intro now start
    show (dayIndex now * msPerDay - dayIndex start * msPerDay) / msPerDay =
      dayIndex now - dayIndex start
    unfold msPerDay
    omega
  refine ⟨fun _ => rfl, hraw, ?_, ?_, by decide, by decide, by decide⟩
  · intro now start h
    rw [hraw]
    omega
  · intro d hd
    unfold getCurrentWeek
    omega

/-- Witness for C10: a start date one day in the future of `now = 0`. -/
theorem getDaysSinceStart_spec_witness :
    getDaysSinceStart 0 (some msPerDay) < 0 :=
  getDaysSinceStart_spec.2.2.1 0 msPerDay (by decide)

/-- C4: each unlock flag of `calculateUnlocks` holds exactly from its
threshold week on (week 2, 4, 7, 7, 10, 10, 10 respectively, with week
derived as floor(days/7)+1); the flag set is monotone in the week, all
flags are false in week 1, and all are true from week 10 on. -/
theorem calculateUnlocks_spec :
    (∀ d : Int,
      ((calculateUnlocks d).textEditor = true ↔ 2 ≤ getCurrentWeek d) ∧
      ((calculateUnlocks d).multipleChapters = true ↔ 4 ≤ getCurrentWeek d) ∧
      ((calculateUnlocks d).fullChapterManagement = true ↔ 7 ≤ getCurrentWeek d) ∧
      ((calculateUnlocks d).reflectionWorkspace = true ↔ 7 ≤ getCurrentWeek d) ∧
      ((calculateUnlocks d).communityFeatures = true ↔ 10 ≤ getCurrentWeek d) ∧
      ((calculateUnlocks d).fullEditor = true ↔ 10 ≤ getCurrentWeek d) ∧
      ((calculateUnlocks d).exportFeatures = true ↔ 10 ≤ getCurrentWeek d)) ∧
    (∀ d1 d2 : Int, getCurrentWeek d1 ≤ getCurrentWeek d2 →
      UnlockState.le (calculateUnlocks d1) (calculateUnlocks d2)) ∧
    (∀ d : Int, getCurrentWeek d = 1 → calculateUnlocks d = DEFAULT_UNLOCKS) ∧
    (∀ d : Int, 10 ≤ getCurrentWeek d → calculateUnlocks d = ALL_UNLOCKS) := by
  refine ⟨?_, ?_, ?_, ?_⟩
  · intro d
    simp [calculateUnlocks, decide_eq_true_iff]
  · intro d1 d2 h
    simp only [calculateUnlocks, UnlockState.le, decide_eq_true_iff]
    omega
  · intro d h
    simp only [calculateUnlocks, DEFAULT_UNLOCKS, UnlockState.mk.injEq,
      decide_eq_false_iff_not, decide_eq_true_iff]
    omega
  · intro d h
    simp only [calculateUnlocks, ALL_UNLOCKS, UnlockState.mk.injEq,
      decide_eq_false_iff_not, decide_eq_true_iff]
    omega

/-- Witness for C4: monotonicity from week 1 (day 0) to week 11 (day 70). -/
theorem calculateUnlocks_spec_witness :
    UnlockState.le (calculateUnlocks 0) (calculateUnlocks 70) :=
  calculateUnlocks_spec.2.1 0 70 (by decide)

/-- C5: `getNewUnlocks` returns a non-empty event list only at the five
exact adjacent week pairs; at (3,4) it returns exactly the Multiple
Chapters unlock, and at the skipped boundary (2,4) it returns nothing. -/
theorem getNewUnlocks_spec :
    (∀ p c : Int, getNewUnlocks p c ≠ [] →
      (p = 1 ∧ c = 2) ∨ (p = 3 ∧ c = 4) ∨ (p = 6 ∧ c = 7) ∨
      (p = 9 ∧ c = 10) ∨ (p = 12 ∧ c = 13)) ∧
    getNewUnlocks 3 4 =
      [{ feature := "Multiple Chapters",
         description := "Create up to 5 chapters", icon := "layers" }] ∧
    getNewUnlocks 2 4 = [] := by
  refine ⟨?_, by simp [getNewUnlocks], by simp [getNewUnlocks]⟩
  intro p c h
  by_contra hn
  apply h
  have h1 : ¬(p = 1 ∧ c = 2) := fun hc => hn (Or.inl hc)
  have h2 : ¬(p = 3 ∧ c = 4) := fun hc => hn (Or.inr (Or.inl hc))
  have h3 : ¬(p = 6 ∧ c = 7) := fun hc => hn (Or.inr (Or.inr (Or.inl hc)))
  have h4 : ¬(p = 9 ∧ c = 10) := fun hc => hn (Or.inr (Or.inr (Or.inr (Or.inl hc))))
  have h5 : ¬(p = 12 ∧ c = 13) := fun hc => hn (Or.inr (Or.inr (Or.inr (Or.inr hc))))
  simp [getNewUnlocks, h1, h2, h3, h4, h5]

/-- Witness for C5: the boundary pair (1,2) produces an event. -/
theorem getNewUnlocks_spec_witness :
    ((1:Int) = 1 ∧ (2:Int) = 2) ∨ ((1:Int) = 3 ∧ (2:Int) = 4) ∨
      ((1:Int) = 6 ∧ (2:Int) = 7) ∨ ((1:Int) = 9 ∧ (2:Int) = 10) ∨
      ((1:Int) = 12 ∧ (2:Int) = 13) :=
  getNewUnlocks_spec.1 1 2 (by decide)


/-- C9: the prompts store's `startWritingSession` always schedules the
first prompt with the hard-coded week 2 — after every call the interval is
5 minutes and the next prompt is due at now + 5 minutes, whatever the
user's actual week — while `scheduleNextPrompt` applied afterwards with
the actual week installs that week's interval. -/
theorem startWritingSession_hardcoded_week2 :
    (∀ now : Int, ∀ s : PromptsState,
      (promptsStartWritingSession now s).promptInterval = 5 ∧
      (promptsStartWritingSession now s).nextPromptTime =
        some (now + 5 * 60 * 1000) ∧
      (promptsStartWritingSession now s).isWritingSessionActive = true) ∧
    (∀ week now i : Int, ∀ s : PromptsState, getPromptInterval week = some i →
      (scheduleNextPrompt week now s).promptInterval = i ∧
      (scheduleNextPrompt week now s).nextPromptTime =
        some (now + i * 60 * 1000)) := by
  constructor
  · intro now s
    exact ⟨rfl, rfl, rfl⟩
  · intro week now i s h
    unfold scheduleNextPrompt
    rw [h]
    exact ⟨rfl, rfl⟩

/-- Witness for C9: rescheduling with actual week 3 yields the 5-minute
interval prescribed by `getPromptInterval`. -/
theorem startWritingSession_hardcoded_week2_witness :
    (scheduleNextPrompt 3 0 (initialPromptsState 0)).promptInterval = 5 :=
  (startWritingSession_hardcoded_week2.2 3 0 5 (initialPromptsState 0) (by decide)).1

/-- C1 counterexample: in a session running in week 10 — a week whose
`getPromptInterval` is null — `checkAndShowPrompt 10` nevertheless returns
true, displays a prompt and records it as shown today, refuting the claim
that every such call returns false and leaves the prompt state unchanged. -/
theorem checkAndShowPrompt_week10_shows :
    getPromptInterval 10 = none ∧
    week10SessionState.isWritingSessionActive = true ∧
    week10SessionState.nextPromptTime = none ∧
    week10SessionState.currentPrompt = none ∧
    (checkAndShowPrompt 10 0 0 week10SessionState).1 = true ∧
    (checkAndShowPrompt 10 0 0 week10SessionState).2.currentPrompt ≠ none ∧
    (checkAndShowPrompt 10 0 0 week10SessionState).2.promptsShownToday ≠ [] := by
  decide

/-- C1 amended: in a week with a null prompt interval no prompt is ever
*scheduled* (`scheduleNextPrompt` leaves `nextPromptTime` null and touches
nothing else), and for the stone-phase case (week < 2) every
`checkAndShowPrompt` call indeed returns false and leaves the state
unchanged; for week ≥ 10 prompts can still be shown (see the
counterexample). -/
theorem checkAndShowPrompt_null_interval :
    (∀ week now : Int, ∀ rand : Nat, ∀ s : PromptsState, week < 2 →
      checkAndShowPrompt week now rand s = (false, s)) ∧
    (∀ week now : Int, ∀ s : PromptsState, getPromptInterval week = none →
      (scheduleNextPrompt week now s).nextPromptTime = none ∧
      scheduleNextPrompt week now s = { s with nextPromptTime := none }) := by
  constructor
  · intro week now rand s hw
    have hsel : ∀ rs : List String, ∀ r : Nat, selectPrompt week rs r = none := by
      intro rs r
      unfold selectPrompt getPromptsForWeek
      rw [if_pos hw]
      rfl
    unfold checkAndShowPrompt
    rw [hsel]
    split_ifs <;> rfl
  · intro week now s h
    unfold scheduleNextPrompt
    rw [h]
    exact ⟨rfl, rfl⟩

/-- Witness for C1: the stone-phase week 1 and the null-interval week 10. -/
theorem checkAndShowPrompt_null_interval_witness :
    checkAndShowPrompt 1 5 7 (initialPromptsState 0) =
      (false, initialPromptsState 0) ∧
    (scheduleNextPrompt 10 0 (initialPromptsState 0)).nextPromptTime = none :=
  ⟨checkAndShowPrompt_null_interval.1 1 5 7 (initialPromptsState 0) (by decide),
   (checkAndShowPrompt_null_interval.2 10 0 (initialPromptsState 0) (by decide)).1⟩


/-- Helper: `endSessionInLog` leaves a log without the id untouched. -/
theorem endSessionInLog_not_found (now : Int) (sid : String) (wc : Int) :
    ∀ l : List WritingSession, (∀ w ∈ l, w.id ≠ sid) →
      endSessionInLog now sid wc l = l := by
  intro l
  induction l with
  | nil => intro _; rfl
  | cons w ws ih =>
      intro h
      simp only [endSessionInLog]
      rw [if_neg (h w (by simp))]
      rw [ih (fun w' hw' => h w' (by simp [hw']))]

/-- Helper: `endSessionInLog` finalizes exactly the first matching entry. -/
theorem endSessionInLog_found (now : Int) (sid : String) (wc : Int)
    (w : WritingSession) (hw : w.id = sid) :
    ∀ pre post : List WritingSession, (∀ w' ∈ pre, w'.id ≠ sid) →
      endSessionInLog now sid wc (pre ++ w :: post) =
        pre ++ { w with duration := roundToMinutes (now - w.timestamp),
                        wordCount := wc } :: post := by
  intro pre
  induction pre with
  | nil =>
      intro post _
      rw [List.nil_append, List.nil_append]
      simp only [endSessionInLog]
      rw [if_pos hw]
  | cons p ps ih =>
      intro post h
      have hsplit : (p :: ps) ++ w :: post = p :: (ps ++ w :: post) := by simp
      rw [hsplit]
      simp only [endSessionInLog]
      rw [if_neg (h p (by simp))]
      rw [ih post (fun w' hw' => h w' (by simp [hw']))]
      simp

/-- C6: `endWritingSession` with an id present in the log finalizes the
(first) matching session — duration becomes the elapsed time since its
creation timestamp rounded to minutes, word count becomes the given value
— and changes nothing else in the store; with an absent id it silently
leaves the entire store state unchanged. -/
theorem endWritingSession_spec :
    (∀ now : Int, ∀ sid : String, ∀ wc : Int, ∀ s : ProgressState,
      (∀ w ∈ s.writingSessionsLog, w.id ≠ sid) →
      endWritingSession now sid wc s = s) ∧
    (∀ now : Int, ∀ sid : String, ∀ wc : Int, ∀ s : ProgressState,
      ∀ pre post : List WritingSession, ∀ w : WritingSession,
      s.writingSessionsLog = pre ++ w :: post →
      (∀ w' ∈ pre, w'.id ≠ sid) → w.id = sid →
      endWritingSession now sid wc s =
        { s with writingSessionsLog :=
            pre ++ { w with duration := roundToMinutes (now - w.timestamp),
                            wordCount := wc } :: post }) := by
  constructor
  · intro now sid wc s h
    unfold endWritingSession
    rw [endSessionInLog_not_found now sid wc s.writingSessionsLog h]
  · intro now sid wc s pre post w hlog hpre hw
    unfold endWritingSession
    rw [hlog, endSessionInLog_found now sid wc w hw pre post hpre]

/-- Witness for C6: an unknown id is a silent no-op; the known id "s1" is
finalized with duration 2 minutes (90 s rounds up) and word count 42. -/
theorem endWritingSession_spec_witness :
    endWritingSession 0 "nope" 1 sampleProgress = sampleProgress ∧
    endWritingSession 90000 "s1" 42 sampleProgress =
      { sampleProgress with writingSessionsLog :=
          [{ sampleSession with duration := 2, wordCount := 42 }] } :=
  ⟨endWritingSession_spec.1 0 "nope" 1 sampleProgress (by decide),
   endWritingSession_spec.2 90000 "s1" 42 sampleProgress [] [] sampleSession
     rfl (by simp) rfl⟩


/-- Helper: the phase order is reflexive. -/
theorem phase_le_self (p : Phase) : Phase.le p p := Nat.le_refl _

/-- Helper: the unlock-flag order is reflexive. -/
theorem unlock_le_self (u : UnlockState) : UnlockState.le u u :=
  ⟨id, id, id, id, id, id, id⟩

/-- Helper: `calculatePhase` is monotone. -/
theorem calculatePhase_mono {d1 d2 : Int} (h : d1 ≤ d2) :
    Phase.le (calculatePhase d1) (calculatePhase d2) := by
  unfold calculatePhase
  split_ifs <;> simp_all [Phase.le, Phase.toNat] <;> omega

/-- Helper: `calculateUnlocks` is monotone. -/
theorem calculateUnlocks_mono {d1 d2 : Int} (h : d1 ≤ d2) :
    UnlockState.le (calculateUnlocks d1) (calculateUnlocks d2) := by
  simp only [calculateUnlocks, UnlockState.le, getCurrentWeek, decide_eq_true_iff]
  omega

/-- Helper: `dayIndex` is monotone. -/
theorem dayIndex_mono {t1 t2 : Int} (h : t1 ≤ t2) : dayIndex t1 ≤ dayIndex t2 := by
  unfold dayIndex msPerDay
  omega

/-- Helper: on a non-null start date, `getDaysSinceStart` is the difference
of day indices. -/
theorem getDaysSinceStart_some (now start : Int) :
    getDaysSinceStart now (some start) = dayIndex now - dayIndex start := by
  show (dayIndex now * msPerDay - dayIndex start * msPerDay) / msPerDay =
    dayIndex now - dayIndex start
  unfold msPerDay
  omega

/-- Helper: a trace's state list starts at the initial state. -/
theorem traceStates_head (s : ProgressState) (tr : List (Int × Op)) :
    (traceStates s tr).head? = some s := by
  cases tr with
  | nil => rfl
  | cons p rest => cases p; rfl

/-- Helper: a benign operation other than `checkPhaseTransition` touches
neither phase, unlocks, start date nor dev mode. -/
theorem applyOp_benign_preserves (t : Int) (op : Op) (s : ProgressState)
    (d0 : Int) (hop : op.isBenign = true) (hne : op ≠ Op.checkPhaseTransition)
    (hsd : s.startDate = some d0) :
    (applyOp t op s).phase = s.phase ∧ (applyOp t op s).unlocked = s.unlocked ∧
    (applyOp t op s).startDate = some d0 ∧
    (applyOp t op s).devModeEnabled = s.devModeEnabled := by
  cases op <;>
    simp_all [applyOp, Op.isBenign, completeOnboarding, completeStoneSession,
      progressStartWritingSession, endWritingSession, recordResonanceScore]

/-- Helper: `checkPhaseTransition` recomputes phase and unlocks from the
elapsed days at the current clock and preserves start date and dev mode. -/
theorem checkPhaseTransition_step (now : Int) (s : ProgressState) (d0 : Int)
    (hsd : s.startDate = some d0) (hdev : s.devModeEnabled = false) :
    (applyOp now Op.checkPhaseTransition s).phase =
      calculatePhase (dayIndex now - dayIndex d0) ∧
    (applyOp now Op.checkPhaseTransition s).unlocked =
      calculateUnlocks (dayIndex now - dayIndex d0) ∧
    (applyOp now Op.checkPhaseTransition s).startDate = some d0 ∧
    (applyOp now Op.checkPhaseTransition s).devModeEnabled = false := by
  simp only [applyOp, checkPhaseTransition, hsd, hdev, getDaysSinceStart_some]
  split_ifs with h1 h2 <;> simp_all

/-- Helper: from a state satisfying the invariant, any benign timed trace
whose times are non-decreasing and start no earlier than `tdays` visits a
step-wise monotone sequence of states. -/
theorem traceStates_chain (trace : List (Int × Op)) :
    ∀ (s : ProgressState) (d0 tdays : Int),
      PhaseClockInv d0 tdays s →
      (∀ p ∈ trace, p.2.isBenign = true) →
      List.Chain' (fun a b : Int => a ≤ b) (trace.map Prod.fst) →
      (∀ t1 ∈ (trace.map Prod.fst).head?, tdays ≤ dayIndex t1 - dayIndex d0) →
      List.Chain' StepMono (traceStates s trace) := by
  induction trace with
  | nil =>
      intro s d0 tdays _ _ _ _
      exact List.chain'_singleton s
  | cons p rest ih =>
      obtain ⟨t, op⟩ := p
      intro s d0 tdays hInv hb hchain hhead
      obtain ⟨hsd, hdev, hphase, hunl⟩ := hInv
      have hrest_b : ∀ q ∈ rest, q.2.isBenign = true :=
        fun q hq => hb q (List.mem_cons_of_mem _ hq)
      have hrest_chain : List.Chain' (fun a b : Int => a ≤ b) (rest.map Prod.fst) :=
        (List.chain'_cons'.mp hchain).2
      have hstep_time : ∀ t1 ∈ (rest.map Prod.fst).head?, t ≤ t1 :=
        (List.chain'_cons'.mp hchain).1
      show List.Chain' StepMono (s :: traceStates (applyOp t op s) rest)
      rw [List.chain'_cons']
      by_cases hck : op = Op.checkPhaseTransition
      · subst hck
        have hD := hhead t (by simp)
        obtain ⟨hp2, hu2, hsd2, hdev2⟩ := checkPhaseTransition_step t s d0 hsd hdev
        constructor
        · intro b hbmem
          rw [traceStates_head] at hbmem
          obtain rfl : applyOp t Op.checkPhaseTransition s = b := by
            simpa using hbmem
          exact ⟨by rw [hphase, hp2]; exact calculatePhase_mono hD,
                 by rw [hunl, hu2]; exact calculateUnlocks_mono hD⟩
        · apply ih (applyOp t Op.checkPhaseTransition s) d0
            (dayIndex t - dayIndex d0) ⟨hsd2, hdev2, hp2, hu2⟩ hrest_b hrest_chain
          intro t1 ht1
          have := hstep_time t1 ht1
          have := dayIndex_mono this
          omega
      · have hbop : op.isBenign = true := hb (t, op) (by simp)
        obtain ⟨hp2, hu2, hsd2, hdev2⟩ :=
          applyOp_benign_preserves t op s d0 hbop hck hsd
        constructor
        · intro b hbmem
          rw [traceStates_head] at hbmem
          obtain rfl : applyOp t op s = b := by simpa using hbmem
          exact ⟨by rw [hp2]; exact phase_le_self _,
                 by rw [hu2]; exact unlock_le_self _⟩
        · apply ih (applyOp t op s) d0 tdays
            ⟨hsd2, by rw [hdev2, hdev], by rw [hp2, hphase], by rw [hu2, hunl]⟩
            hrest_b hrest_chain
          intro t1 ht1
          have h1 := hhead t (by simp)
          have h2 := hstep_time t1 ht1
          have h3 := dayIndex_mono h2
          omega

/-- C2 counterexample: `startJourney`, `skipJourney` and
`checkPhaseTransition` are all in the claim's normal-operation alphabet,
yet running them in that order (all at clock 0, a non-decreasing clock)
moves the stored phase backwards from autonomous to stone and reverts the
`textEditor` unlock flag from true to false. -/
theorem skipJourney_then_check_regresses :
    (applyOp 0 Op.skipJourney
        (applyOp 0 Op.startJourney initialProgressState)).phase =
      Phase.autonomous ∧
    (applyOp 0 Op.checkPhaseTransition
        (applyOp 0 Op.skipJourney
          (applyOp 0 Op.startJourney initialProgressState))).phase =
      Phase.stone ∧
    ¬ Phase.le Phase.autonomous Phase.stone ∧
    (applyOp 0 Op.skipJourney
        (applyOp 0 Op.startJourney initialProgressState)).unlocked.textEditor =
      true ∧
    (applyOp 0 Op.checkPhaseTransition
        (applyOp 0 Op.skipJourney
          (applyOp 0 Op.startJourney initialProgressState))).unlocked.textEditor =
      false := by
  decide

/-- C2 amended: once the journey has started (`startJourney`, dev mode
off), any further sequence of the normal operations *other than*
`startJourney` and `skipJourney` — onboarding completion, stone/writing
session recording, resonance recording, and repeated
`checkPhaseTransition` under a non-decreasing clock — never moves the
stored phase backwards and never reverts an unlock flag. -/
theorem progress_monotone_after_start
    (s0 : ProgressState) (t0 : Int) (trace : List (Int × Op))
    (hdev : s0.devModeEnabled = false)
    (hb : ∀ p ∈ trace, p.2.isBenign = true)
    (hc : List.Chain' (fun a b : Int => a ≤ b) (t0 :: trace.map Prod.fst)) :
    List.Chain' StepMono (traceStates (startJourney t0 s0) trace) := by
  apply traceStates_chain trace (startJourney t0 s0) t0 0
  · exact ⟨rfl, hdev, rfl, rfl⟩
  · exact hb
  · exact (List.chain'_cons'.mp hc).2
  · intro t1 ht1
    have h1 := (List.chain'_cons'.mp hc).1 t1 ht1
    have h2 := dayIndex_mono h1
    omega

/-- Witness for C2: starting at clock 0 and checking the transition two
weeks later advances the phase monotonically. -/
theorem progress_monotone_after_start_witness :
    List.Chain' StepMono
      (traceStates (startJourney 0 initialProgressState)
        [(1209600000, Op.checkPhaseTransition)]) :=
  progress_monotone_after_start initialProgressState 0
    [(1209600000, Op.checkPhaseTransition)] rfl (by decide)
    (by norm_num [List.chain'_cons, List.chain'_singleton])

end WritersVoice
